import Mathlib

/-!
Verification of the MCP form-filler core (`mcp_form_filler.py`): the task
composer `_build_task` and the outcome classifier inside
`fill_form_and_check`.  Python strings are modelled as Lean `String`
(sequences of code points); Python `None`-able strings as `Option String`;
Python dicts (insertion-ordered) as association lists.  Python slicing
`s[:n]`, truthiness, `x or y`, `str.upper` and the substring test
`pat in s` are given explicit models below.
-/

namespace FormFiller

/-- Python truthiness of an optional string: `None` and `""` are falsy,
every other string is truthy. -/
def pyTruthy : Option String → Bool
  | none => false
  | some s => !(s == "")

/-- Python `x or d` where `x` is an optional string and `d` a string
default: yields the string held by `x` when `x` is truthy, else `d`. -/
def pyOrS (x : Option String) (d : String) : String :=
  if pyTruthy x then x.getD "" else d

/-- Python substring test `pat in s`, on code points. -/
def strContains (s pat : String) : Bool :=
  decide (pat.data <:+: s.data)

/-- Python slice `s[:n]`: the first `n` code points of `s`. -/
def pySlice (s : String) (n : Nat) : String :=
  ⟨s.data.take n⟩

/-- Python `str.upper`, modelled code-point-wise with `Char.toUpper`
(faithful on the ASCII data the classifier scans for). -/
def pyUpper (s : String) : String :=
  ⟨s.data.map Char.toUpper⟩

/-! ## Task composer (`_build_task`, source lines 26-88) -/

/-- The fixed locator-priority policy block and field-list header
(source lines 41-51, appended right after the navigation lines). -/
def policyLines : List String :=
  ["Wait until the page is fully interactive.",
   "For each field below, find the input/textarea/select by (in order):",
   "1) a visible label matching the given key (case-insensitive),",
   "2) placeholder matching the key,",
   "3) name or id matching the key,",
   "4) or a CSS selector if the key looks like a selector (starts with \x27#\x27 or \x27.\x27 or contains \x27[\x27).",
   "If multiple matches exist, choose the most visible and enabled one.",
   "Scroll into view before typing/selecting; do not paste invisible text.",
   "Fields to fill (key -> value):"]

/-- The opening lines of the task: the navigation directive followed by
the fixed policy block (source lines 40-51). -/
def taskHeaderLines (url : String) : List String :=
  ("Open " ++ url ++ ".") :: policyLines

/-- One rendered field line (source lines 52-54):
`safe_v = v.replace("\n", " ").strip()` then `f"- {k} -> {safe_v}"`. -/
def fieldLine (k v : String) : String :=
  "- " ++ k ++ " -> " ++ (v.replace "\n" " ").trim

/-- Structural-click submission directive (source line 58). -/
def selectorSubmitLine (sel : String) : String :=
  "Submit the form by clicking the element matching CSS selector: " ++ sel ++ "."

/-- Fuzzy label-click submission directive (source line 60). -/
def textSubmitLine (txt : String) : String :=
  "Submit the form by clicking the most prominent button whose text contains: \"" ++ txt ++ "\" (case-insensitive)."

/-- Generic fallback submission directive (source line 62). -/
def fallbackSubmitLine : String :=
  "Submit the form by clicking the primary submit button (type=submit) within the same form as the last edited field."

/-- The submission directive chosen by the `if submit_selector: / elif
submit_text: / else:` chain (source lines 56-62), with Python truthiness. -/
def submitLine (submit_selector submit_text : Option String) : String :=
  if pyTruthy submit_selector then selectorSubmitLine (pyOrS submit_selector "")
  else if pyTruthy submit_text then textSubmitLine (pyOrS submit_text "")
  else fallbackSubmitLine

/-- Post-submit settle directive (source line 65). -/
def waitLine (wait_after_submit_sec : Nat) : String :=
  "After submitting, wait up to " ++ toString wait_after_submit_sec ++ " seconds for navigation or DOM updates."

/-- Confirmation line for `check_selector` (source line 68). -/
def checkSelectorLine (cs : String) : String :=
  "Confirm that a node matching CSS selector `" ++ cs ++ "` exists."

/-- Confirmation line for `must_contain_text` (source line 70). -/
def mustContainLine (t : String) : String :=
  "Confirm the resulting page contains the text: \"" ++ t ++ "\" (case-insensitive)."

/-- The `checks` list (source lines 66-70): one entry per truthy
verification predicate, selector first. -/
def checksList (check_selector must_contain_text : Option String) : List String :=
  (if pyTruthy check_selector then [checkSelectorLine (pyOrS check_selector "")] else []) ++
  (if pyTruthy must_contain_text then [mustContainLine (pyOrS must_contain_text "")] else [])

/-- PASS emission instruction (source line 76). -/
def passInstrLine : String :=
  "If verification passes, output PASS and include a short explanation with any matched text."

/-- FAIL emission instruction (source line 77). -/
def failInstrLine : String :=
  "If verification fails, output FAIL and include a brief reason and any relevant visible error messages."

/-- Generic summary directive emitted when no checks are requested
(source line 79). -/
def summaryLine : String :=
  "Finally, summarize the result in one or two sentences."

/-- The verification block or, when `checks` is empty, the generic summary
directive (source lines 72-79). -/
def verificationLines (check_selector must_contain_text : Option String) : List String :=
  let checks := checksList check_selector must_contain_text
  if checks.isEmpty then [summaryLine]
  else "Verification:" :: checks.map (fun c => "- " ++ c) ++ [passInstrLine, failInstrLine]

/-- The closing directive enumerating the final-note contract
(source lines 82-86). -/
def closingLines : List String :=
  ["In your final note, include:",
   "- status: PASS or FAIL (if checks were requested; otherwise DONE)",
   "- final URL",
   "- page title",
   "- a one-paragraph summary"]

/-- The full ordered line list built by `_build_task` (source lines 39-86):
header and policy block, one line per field in insertion order, the chosen
submission directive, the settle directive, the verification block or
summary directive, and the closing contract. -/
def buildTaskLines (url : String) (fields : List (String × String))
    (submit_selector submit_text check_selector must_contain_text : Option String)
    (wait_after_submit_sec : Nat) : List String :=
  taskHeaderLines url ++
  fields.map (fun kv => fieldLine kv.1 kv.2) ++
  [submitLine submit_selector submit_text] ++
  [waitLine wait_after_submit_sec] ++
  verificationLines check_selector must_contain_text ++
  closingLines

/-- The full task text returned by `_build_task` (source line 88): the lines joined with newlines. -/
def build_task (url : String) (fields : List (String × String))
    (submit_selector submit_text check_selector must_contain_text : Option String)
    (wait_after_submit_sec : Nat) : String :=
  String.intercalate "\n" (buildTaskLines url fields submit_selector submit_text
    check_selector must_contain_text wait_after_submit_sec)

/-- Recognizer for submission directives: the three possible directives are
exactly the task lines starting with this fixed prefix. -/
def isSubmitDirective (l : String) : Bool :=
  List.isPrefixOf "Submit the form by clicking".data l.data

/-! ## Outcome classifier (`fill_form_and_check`, source lines 137-175) -/

/-- A transcript record as the classifier can observe it through
`getattr(h, ..., None)`, `isinstance(h, dict)` and `h.get(...)`:
an attribute-carrying object that is not a dict (`obj`, with its optional
`action`/`note` attribute values), a dict (`dct`, with its optional
`"action"`/`"note"` entries), or a record on which attribute or item
access raises (`raising`).  Each carries `txt`, its `str(...)` rendering.
This is the string-valued fragment of the collaborator's untyped records:
every `action`/`note` slot is absent or holds a string.  `PyRecord` below
extends it with non-string slot values, and `PyRecord.ofRecord` embeds
this fragment into it. -/
inductive Record where
  | obj (action note : Option String) (txt : String)
  | dct (action note : Option String) (txt : String)
  | raising (txt : String)

/-- The `str(h)` rendering of a record. -/
def Record.toText : Record → String
  | .obj _ _ t => t
  | .dct _ _ t => t
  | .raising t => t

/-- Models `getattr(h, "action", None) or (h.get("action") if isinstance(h, dict)
else None)` (source line 148); `.error` models the access raising.
For an `obj`, a falsy attribute value (absent or `""`) falls through to the
`else None` branch; for a `dct`, `getattr` yields `None` and the `or`
yields `h.get("action")` unchanged. -/
def extractAction : Record → Except Unit (Option String)
  | .obj a _ _ => .ok (if pyTruthy a then a else none)
  | .dct a _ _ => .ok a
  | .raising _ => .error ()

/-- Models `getattr(h, "note", None) or (h.get("note") if isinstance(h, dict)
else None)` (source line 149), as for `extractAction`. -/
def extractNote : Record → Except Unit (Option String)
  | .obj _ n _ => .ok (if pyTruthy n then n else none)
  | .dct _ n _ => .ok n
  | .raising _ => .error ()

/-- One rendered step summary (source lines 147-152):
`f"Step {i+1}: {action or 'action'} â€” {(note or '')[:180]}"` when
extraction does not raise, else the fallback
`f"Step {i+1}: {str(h)[:200]}"`.  (The separator `â€”` is the
literal character sequence in the source.) -/
def stepStr (i : Nat) (h : Record) : String :=
  match extractAction h, extractNote h with
  | .ok a, .ok n =>
      "Step " ++ toString (i + 1) ++ ": " ++ pyOrS a "action" ++ " â€” " ++
        pySlice (pyOrS n "") 180
  | _, _ => "Step " ++ toString (i + 1) ++ ": " ++ pySlice h.toText 200

/-- The full rendered step list, `enumerate(history)` (source lines
145-152); the output truncation to 40 happens at the response (line 173). -/
def renderSteps (history : List Record) : List String :=
  history.enum.map (fun ih => stepStr ih.1 ih.2)

/-- Models `getattr(last, "note", None) or (last.get("note") if isinstance(last,
dict) else "")` with the surrounding `try`/`except` falling back to
`str(last)[:1000]` (source lines 156-160).  `none` is Python `None`
(possible only for a dict lacking a truthy note). -/
def finalNoteOf : Record → Option String
  | .obj _ n _ => some (pyOrS n "")
  | .dct _ n _ => n
  | .raising t => some (pySlice t 1000)

/-- The `final_note` value (source lines 154-160): `""` for an empty history, else
extracted from the last record. -/
def computeFinalNote (history : List Record) : Option String :=
  match history.getLast? with
  | none => some ""
  | some last => finalNoteOf last

/-- The fixed tag priority scanned by the loop on source line 164. -/
def tagPriority : List String := ["PASS", "FAIL", "DONE"]

/-- The tag scan (source lines 163-167): `result = "DONE"`, then the first
tag of `tagPriority` occurring in `(final_note or "").upper()` wins. -/
def scanTag (final_note : Option String) : String :=
  match tagPriority.find? (fun tag => strContains (pyUpper (pyOrS final_note "")) tag) with
  | some tag => tag
  | none => "DONE"

/-- The tool response dict.  `final = none` models the Python value `None`;
`model = none` models the `"model"` key being absent from the dict. -/
structure Response where
  status : String
  result : String
  final : Option String
  steps : List String
  model : Option String

/-- The outcome of `await asyncio.wait_for(agent.run(task), timeout)`:
a timeout, some other exception (with its `str(e)`), or a transcript. -/
inductive AgentOutcome where
  | timeout
  | failure (msg : String)
  | success (history : List Record)

/-- Models `fill_form_and_check` from the agent call onwards (source lines
137-175): the `except` arms (lines 139-142) and the success path
(lines 144-175). -/
def fill_form_and_check (model : String) (timeout_seconds : Nat)
    (outcome : AgentOutcome) : Response :=
  match outcome with
  | .timeout =>
      { status := "ok", result := "TIMEOUT",
        final := some ("Timed out after " ++ toString timeout_seconds ++ "s"),
        steps := [], model := none }
  | .failure e =>
      { status := "ok", result := "ERROR", final := some e,
        steps := [], model := none }
  | .success history =>
      { status := "ok",
        result := scanTag (computeFinalNote history),
        final := computeFinalNote history,
        steps := (renderSteps history).take 40,
        model := some model }

/-! ## The classifier over general Python values

The collaborator's records are untyped, so an `action`/`note` slot can
hold any Python value, not only a string.  The model below carries the
extra cases needed to decide what the classifier does with such values;
`Record` above is its string-valued fragment. -/

/-- A Python value in a record's `action`/`note` slot: a string, or a
non-string value `other truthy txt slice` where `truthy` is `bool(v)`,
`txt` is `str(v)` (what an f-string renders), and `slice` is the f-string
rendering of `v[:180]` — `none` when slicing raises `TypeError` (a
non-subscriptable value such as an int). -/
inductive PyVal where
  | str (s : String)
  | other (truthy : Bool) (txt : String) (slice : Option String)

/-- Python truthiness of an optional value. -/
def pyValTruthy : Option PyVal → Bool
  | none => false
  | some (.str s) => !(s == "")
  | some (.other t _ _) => t

/-- The f-string rendering of `x or d` for an optional value `x` and a
string default `d`. -/
def pyValOr : Option PyVal → String → String
  | some (.str s), d => if s == "" then d else s
  | some (.other t txt _), d => if t then txt else d
  | none, d => d

/-- A transcript record over general Python values: `Record` with `PyVal`
slots. -/
inductive PyRecord where
  | obj (action note : Option PyVal) (txt : String)
  | dct (action note : Option PyVal) (txt : String)
  | raising (txt : String)

/-- The embedding of a string-valued record into the general model. -/
def PyRecord.ofRecord : Record → PyRecord
  | .obj a n t => .obj (a.map PyVal.str) (n.map PyVal.str) t
  | .dct a n t => .dct (a.map PyVal.str) (n.map PyVal.str) t
  | .raising t => .raising t

/-- The rendering of `(note or '')[:180]` on source line 150: slicing `''`
or a string is total; slicing a truthy non-string yields its `slice`
field, whose `none` (a `TypeError`) sends the step to the raw fallback. -/
def noteSlicePy : Option PyVal → Option String
  | some (.str s) => some (pySlice s 180)
  | some (.other true _ sl) => sl
  | some (.other false _ _) => some ""
  | none => some ""

/-- One rendered step summary over general values (source lines 147-152):
the `try` arm formats `action or 'action'` and `(note or '')[:180]`; a
`TypeError` from the slice, like raising access, takes the `except` arm
`f"Step {i+1}: {str(h)[:200]}"`. -/
def stepStrPy (i : Nat) (h : PyRecord) : String :=
  match h with
  | .raising t => "Step " ++ toString (i + 1) ++ ": " ++ pySlice t 200
  | .obj a n t =>
      match noteSlicePy n with
      | some np => "Step " ++ toString (i + 1) ++ ": " ++ pyValOr a "action" ++ " â€” " ++ np
      | none => "Step " ++ toString (i + 1) ++ ": " ++ pySlice t 200
  | .dct a n t =>
      match noteSlicePy n with
      | some np => "Step " ++ toString (i + 1) ++ ": " ++ pyValOr a "action" ++ " â€” " ++ np
      | none => "Step " ++ toString (i + 1) ++ ": " ++ pySlice t 200

/-- The rendered step list over general values (source lines 145-152). -/
def renderStepsPy (history : List PyRecord) : List String :=
  history.enum.map (fun ih => stepStrPy ih.1 ih.2)

/-- The `final_note` Python value (source lines 156-160) over general
values; the result `none` is Python `None`.  For an `obj`, `attr or ""`
keeps a truthy value and otherwise gives `""`; for a `dct`, `None or
last.get("note")` is the entry unchanged, truthy or not; raising access
falls back to `str(last)[:1000]`. -/
def finalNoteOfPy : PyRecord → Option PyVal
  | .obj _ n _ => if pyValTruthy n then n else some (.str "")
  | .dct _ n _ => n
  | .raising t => some (.str (pySlice t 1000))

/-- The `final_note` value over general values (source lines 154-160). -/
def computeFinalNotePy (history : List PyRecord) : Option PyVal :=
  match history.getLast? with
  | none => some (.str "")
  | some last => finalNoteOfPy last

/-- The tag scan over a general final note (source lines 163-167): line
165 evaluates `(final_note or "").upper()` outside any `try`, so a truthy
non-string note raises `AttributeError` — modelled as `.error ()` — while
otherwise the scanned text is the held string or `""` and the priority
scan of `scanTag` runs. -/
def scanTagPy : Option PyVal → Except Unit String
  | some (.str s) => .ok (scanTag (some s))
  | some (.other true _ _) => .error ()
  | some (.other false _ _) => .ok (scanTag (some ""))
  | none => .ok (scanTag none)

/-- The response over general values; `final` keeps the Python value of
the final note. -/
structure ResponsePy where
  status : String
  result : String
  final : Option PyVal
  steps : List String
  model : Option String

/-- The agent outcome over general values. -/
inductive AgentOutcomePy where
  | timeout
  | failure (msg : String)
  | success (history : List PyRecord)

/-- Models `fill_form_and_check` (source lines 137-175) over general
values: `.error ()` is an exception escaping the operation (the steps
list, already computed by line 152, is discarded by the raise). -/
def fill_form_and_check_py (model : String) (timeout_seconds : Nat)
    (outcome : AgentOutcomePy) : Except Unit ResponsePy :=
  match outcome with
  | .timeout =>
      .ok { status := "ok", result := "TIMEOUT",
            final := some (.str ("Timed out after " ++ toString timeout_seconds ++ "s")),
            steps := [], model := none }
  | .failure e =>
      .ok { status := "ok", result := "ERROR", final := some (.str e),
            steps := [], model := none }
  | .success history =>
      match scanTagPy (computeFinalNotePy history) with
      | .error e => .error e
      | .ok tag =>
          .ok { status := "ok", result := tag,
                final := computeFinalNotePy history,
                steps := (renderStepsPy history).take 40,
                model := some model }

/-! ## Classifier lemmas -/

/-- The priority scan is the nested conditional PASS / FAIL / DONE. -/
lemma scanTag_ite (fn : Option String) :
    scanTag fn =
      (if strContains (pyUpper (pyOrS fn "")) "PASS" = true then "PASS"
       else if strContains (pyUpper (pyOrS fn "")) "FAIL" = true then "FAIL"
       else "DONE") := by
  unfold scanTag tagPriority
  cases h1 : strContains (pyUpper (pyOrS fn "")) "PASS" <;>
    cases h2 : strContains (pyUpper (pyOrS fn "")) "FAIL" <;>
      cases h3 : strContains (pyUpper (pyOrS fn "")) "DONE" <;>
        simp [List.find?, h1, h2, h3]

/-- The scanned tag is always one of the three transcript-derived tags. -/
lemma scanTag_mem (fn : Option String) :
    scanTag fn ∈ (["PASS", "FAIL", "DONE"] : List String) := by
  rw [scanTag_ite]
  split_ifs <;> simp

/-- A Python slice `s[:n]` has at most `n` code points. -/
lemma pySlice_length_le (s : String) (n : Nat) : (pySlice s n).length ≤ n := by
  have h : (pySlice s n).length = (s.data.take n).length := rfl
  rw [h, List.length_take]
  exact min_le_left _ _

/-- Rendering of an attribute-style record, with the Python `or` defaults
folded in. -/
lemma stepStr_obj (i : Nat) (a n : Option String) (t : String) :
    stepStr i (.obj a n t) =
      "Step " ++ toString (i + 1) ++ ": " ++ pyOrS a "action" ++ " â€” " ++
        pySlice (pyOrS n "") 180 := by
  unfold stepStr extractAction extractNote
  cases ha : pyTruthy a <;> cases hn : pyTruthy n <;>
    simp [pyOrS, ha, hn, show pyTruthy none = false from rfl]

/-- Rendering of a mapping-style record. -/
lemma stepStr_dct (i : Nat) (a n : Option String) (t : String) :
    stepStr i (.dct a n t) =
      "Step " ++ toString (i + 1) ++ ": " ++ pyOrS a "action" ++ " â€” " ++
        pySlice (pyOrS n "") 180 := rfl

/-! ## Claims about the outcome classifier -/

/-- C1: on the success path the result tag comes from scanning the
uppercased final note for the literal substrings PASS, FAIL, DONE in that
fixed priority order; a note whose uppercase contains "PASS" yields PASS
even if it also contains "FAIL", one containing "FAIL" but not "PASS"
yields FAIL, one containing none of the three yields DONE, and the tag is
always one of the five closed values. -/
theorem C1_result_tag (model : String) (timeout_seconds : Nat) (history : List Record) :
    (fill_form_and_check model timeout_seconds (.success history)).result =
      scanTag (computeFinalNote history) ∧
    (strContains (pyUpper (pyOrS (computeFinalNote history) "")) "PASS" = true →
      (fill_form_and_check model timeout_seconds (.success history)).result = "PASS") ∧
    (strContains (pyUpper (pyOrS (computeFinalNote history) "")) "PASS" = false →
     strContains (pyUpper (pyOrS (computeFinalNote history) "")) "FAIL" = true →
      (fill_form_and_check model timeout_seconds (.success history)).result = "FAIL") ∧
    (strContains (pyUpper (pyOrS (computeFinalNote history) "")) "PASS" = false →
     strContains (pyUpper (pyOrS (computeFinalNote history) "")) "FAIL" = false →
     strContains (pyUpper (pyOrS (computeFinalNote history) "")) "DONE" = false →
      (fill_form_and_check model timeout_seconds (.success history)).result = "DONE") ∧
    (fill_form_and_check model timeout_seconds (.success history)).result ∈
      (["PASS", "FAIL", "DONE", "TIMEOUT", "ERROR"] : List String) := by
  have hr : (fill_form_and_check model timeout_seconds (.success history)).result =
      scanTag (computeFinalNote history) := rfl
  refine ⟨hr, ?_, ?_, ?_, ?_⟩
  · intro h1
    rw [hr, scanTag_ite, if_pos h1]
  · intro h1 h2
    rw [hr, scanTag_ite, if_neg (by simp [h1]), if_pos h2]
  · intro h1 h2 _
    rw [hr, scanTag_ite, if_neg (by simp [h1]), if_neg (by simp [h2])]
  · rw [hr]
    have h := scanTag_mem (computeFinalNote history)
    simp only [List.mem_cons, List.not_mem_nil, or_false] at h ⊢
    rcases h with h | h | h <;> simp [h]

/-- Witness for C1: a final note containing both "pass" (lower case) and
"FAIL" is tagged PASS; one containing "FAIL" only is tagged FAIL; one
containing none of the tokens is tagged DONE. -/
theorem C1_result_tag_witness :
    (strContains (pyUpper (pyOrS (computeFinalNote
        [Record.obj none (some "went well: pass, surely not FAIL") "r"]) "")) "PASS" = true ∧
     (fill_form_and_check "llama3.1:8b" 300 (.success
        [Record.obj none (some "went well: pass, surely not FAIL") "r"])).result = "PASS") ∧
    (strContains (pyUpper (pyOrS (computeFinalNote
        [Record.dct none (some "Result: FAIL - field not found") "r"]) "")) "PASS" = false ∧
     (fill_form_and_check "llama3.1:8b" 300 (.success
        [Record.dct none (some "Result: FAIL - field not found") "r"])).result = "FAIL") ∧
    (fill_form_and_check "llama3.1:8b" 300 (.success
        [Record.obj none (some "form submitted") "r"])).result = "DONE" :=
  ⟨⟨rfl, (C1_result_tag "llama3.1:8b" 300 _).2.1 rfl⟩,
   ⟨rfl, (C1_result_tag "llama3.1:8b" 300 _).2.2.1 rfl rfl⟩,
   (C1_result_tag "llama3.1:8b" 300 _).2.2.2.1 rfl rfl rfl⟩

/-- C2: when the agent invocation fails to produce a transcript, the
operation short-circuits: a timeout yields result TIMEOUT with the fixed
final note naming the timeout budget, any other fault yields result ERROR
with the fault text as final note, and in both cases `steps` is empty. -/
theorem C2_failure_short_circuit (model : String) (timeout_seconds : Nat) (e : String) :
    ((fill_form_and_check model timeout_seconds .timeout).result = "TIMEOUT" ∧
     (fill_form_and_check model timeout_seconds .timeout).final =
       some ("Timed out after " ++ toString timeout_seconds ++ "s") ∧
     (fill_form_and_check model timeout_seconds .timeout).steps = []) ∧
    ((fill_form_and_check model timeout_seconds (.failure e)).result = "ERROR" ∧
     (fill_form_and_check model timeout_seconds (.failure e)).final = some e ∧
     (fill_form_and_check model timeout_seconds (.failure e)).steps = []) :=
  ⟨⟨rfl, rfl, rfl⟩, rfl, rfl, rfl⟩

/-- The final-note extraction of the general model restricts to the
string-fragment extraction on embedded records. -/
lemma finalNoteOfPy_ofRecord (r : Record) :
    finalNoteOfPy (PyRecord.ofRecord r) = (finalNoteOf r).map PyVal.str := by
  cases r with
  | obj a n t =>
      cases n with
      | none => simp [PyRecord.ofRecord, finalNoteOfPy, finalNoteOf, pyValTruthy, pyOrS, pyTruthy]
      | some s =>
          by_cases hs : s = "" <;>
            simp [PyRecord.ofRecord, finalNoteOfPy, finalNoteOf, pyValTruthy, pyOrS, pyTruthy, hs]
  | dct a n t => cases n <;> rfl
  | raising t => rfl

lemma computeFinalNotePy_ofRecord (history : List Record) :
    computeFinalNotePy (history.map PyRecord.ofRecord) =
      (computeFinalNote history).map PyVal.str := by
  unfold computeFinalNotePy computeFinalNote
  rw [List.getLast?_map]
  cases history.getLast? with
  | none => rfl
  | some last => exact finalNoteOfPy_ofRecord last

/-- The step rendering of the general model restricts to the
string-fragment rendering on embedded records. -/
lemma stepStrPy_ofRecord (i : Nat) (r : Record) :
    stepStrPy i (PyRecord.ofRecord r) = stepStr i r := by
  cases r with
  | obj a n t =>
      rw [stepStr_obj]
      cases a with
      | none =>
          cases n with
          | none => rfl
          | some s =>
              by_cases hs : s = "" <;>
                simp [PyRecord.ofRecord, stepStrPy, noteSlicePy, pyValOr, pyOrS, pyTruthy,
                  pySlice, hs]
      | some b =>
          cases n with
          | none =>
              by_cases hb : b = "" <;>
                simp [PyRecord.ofRecord, stepStrPy, noteSlicePy, pyValOr, pyOrS, pyTruthy,
                  pySlice, hb]
          | some s =>
              by_cases hb : b = "" <;> by_cases hs : s = "" <;>
                simp [PyRecord.ofRecord, stepStrPy, noteSlicePy, pyValOr, pyOrS, pyTruthy,
                  pySlice, hb, hs]
  | dct a n t =>
      rw [stepStr_dct]
      cases a with
      | none =>
          cases n with
          | none => rfl
          | some s =>
              by_cases hs : s = "" <;>
                simp [PyRecord.ofRecord, stepStrPy, noteSlicePy, pyValOr, pyOrS, pyTruthy,
                  pySlice, hs]
      | some b =>
          cases n with
          | none =>
              by_cases hb : b = "" <;>
                simp [PyRecord.ofRecord, stepStrPy, noteSlicePy, pyValOr, pyOrS, pyTruthy,
                  pySlice, hb]
          | some s =>
              by_cases hb : b = "" <;> by_cases hs : s = "" <;>
                simp [PyRecord.ofRecord, stepStrPy, noteSlicePy, pyValOr, pyOrS, pyTruthy,
                  pySlice, hb, hs]
  | raising t => rfl

lemma renderStepsPy_ofRecord (history : List Record) :
    renderStepsPy (history.map PyRecord.ofRecord) = renderSteps history := by
  unfold renderStepsPy renderSteps
  rw [List.enum_map, List.map_map]
  refine List.map_congr_left ?_
  intro ih _
  exact stepStrPy_ofRecord ih.1 ih.2

/-- On string-valued transcripts the general model never raises and
agrees with the string-fragment model. -/
lemma fill_py_agrees_on_strings (model : String) (timeout_seconds : Nat)
    (history : List Record) :
    fill_form_and_check_py model timeout_seconds
        (.success (history.map PyRecord.ofRecord)) =
      .ok { status := "ok",
            result := (fill_form_and_check model timeout_seconds (.success history)).result,
            final := (computeFinalNote history).map PyVal.str,
            steps := (fill_form_and_check model timeout_seconds (.success history)).steps,
            model := some model } := by
  have hfin := computeFinalNotePy_ofRecord history
  have hscan : scanTagPy (computeFinalNotePy (history.map PyRecord.ofRecord)) =
      .ok (scanTag (computeFinalNote history)) := by
    rw [hfin]
    cases computeFinalNote history with
    | none => rfl
    | some s => rfl
  simp only [fill_form_and_check_py]
  rw [hscan, hfin, renderStepsPy_ofRecord]
  rfl

/-- C3 (code bug): classification is not raise-free.  With a transcript
whose last record is the dict `{"note": 123}` — a truthy non-string note —
the step loop's `try` absorbs the slicing `TypeError`, but
`(final_note or "").upper()` on source line 165 runs outside any `try`
and raises `AttributeError`, which propagates to the caller; the same
transcript with the note held as the string `"123"` is classified
normally, and on every string-valued transcript the general model agrees
with the raise-free string-fragment classifier. -/
theorem C3_classifier_raises :
    fill_form_and_check_py "llama3.1:8b" 300 (.success
        [PyRecord.dct none (some (PyVal.other true "123" none)) "\x7b\x27note\x27: 123\x7d"])
      = .error () ∧
    fill_form_and_check_py "llama3.1:8b" 300 (.success
        [PyRecord.dct none (some (PyVal.str "123")) "\x7b\x27note\x27: \x27123\x27\x7d"])
      = .ok { status := "ok", result := "DONE", final := some (PyVal.str "123"),
              steps := ["Step 1: action â€” 123"], model := some "llama3.1:8b" } ∧
    (∀ (model : String) (timeout_seconds : Nat) (history : List Record),
      (fill_form_and_check_py model timeout_seconds
        (.success (history.map PyRecord.ofRecord))).isOk = true) := by
  refine ⟨rfl, rfl, ?_⟩
  intro model timeout_seconds history
  rw [fill_py_agrees_on_strings]
  rfl

/-- C7: the steps list of a success response is the first 40 rendered
summaries (one per record, in order, labelled with the 1-based index), so
its length never exceeds 40 even for transcripts far longer than 40; and
the note portion of every summary whose extraction succeeds is the
180-code-point slice of the note, hence at most 180 characters long. -/
theorem C7_steps_truncated (model : String) (timeout_seconds : Nat) (history : List Record) :
    (fill_form_and_check model timeout_seconds (.success history)).steps =
      (renderSteps history).take 40 ∧
    (fill_form_and_check model timeout_seconds (.success history)).steps.length ≤ 40 ∧
    (renderSteps history).length = history.length ∧
    (∀ i a n t, stepStr i (.obj a n t) =
      "Step " ++ toString (i + 1) ++ ": " ++ pyOrS a "action" ++ " â€” " ++
        pySlice (pyOrS n "") 180) ∧
    (∀ i a n t, stepStr i (.dct a n t) =
      "Step " ++ toString (i + 1) ++ ": " ++ pyOrS a "action" ++ " â€” " ++
        pySlice (pyOrS n "") 180) ∧
    (∀ s : String, (pySlice s 180).length ≤ 180) := by
  refine ⟨rfl, ?_, ?_, fun i a n t => stepStr_obj i a n t,
    fun i a n t => stepStr_dct i a n t, fun s => pySlice_length_le s 180⟩
  · have h : (fill_form_and_check model timeout_seconds (.success history)).steps =
        (renderSteps history).take 40 := rfl
    rw [h, List.length_take]
    exact min_le_left _ _
  · unfold renderSteps
    rw [List.length_map, List.enum_length]

/-! ## Composer lemmas -/

/-- Strings whose code-point sequences begin with different characters are
different. -/
lemma ne_of_head {s t : String} {a b : Char} (hs : ∃ r, s.data = a :: r)
    (ht : ∃ r, t.data = b :: r) (h : a ≠ b) : s ≠ t := by
  obtain ⟨p, hp⟩ := hs
  obtain ⟨q, hq⟩ := ht
  intro e
  subst e
  rw [hp] at hq
  injection hq with h1 _
  exact h h1

/-- Appending on the right preserves the head character. -/
lemma head_append {s : String} {c : Char} (h : ∃ r, s.data = c :: r) (t : String) :
    ∃ r, (s ++ t).data = c :: r := by
  obtain ⟨r, hr⟩ := h
  exact ⟨r ++ t.data, by rw [String.data_append, hr]; rfl⟩

lemma open_line_head (url : String) : ∃ r, ("Open " ++ url ++ ".").data = 'O' :: r :=
  head_append (head_append ⟨['p', 'e', 'n', ' '], rfl⟩ url) "."

lemma fieldLine_head (k v : String) : ∃ r, (fieldLine k v).data = '-' :: r :=
  head_append (head_append (head_append ⟨[' '], rfl⟩ k) " -> ") _

lemma selectorSubmitLine_head (s : String) :
    ∃ r, (selectorSubmitLine s).data = 'S' :: r :=
  head_append (head_append
    ⟨("Submit the form by clicking the element matching CSS selector: " : String).data.tail,
      by decide⟩ s) "."

lemma textSubmitLine_head (s : String) : ∃ r, (textSubmitLine s).data = 'S' :: r :=
  head_append (head_append
    ⟨("Submit the form by clicking the most prominent button whose text contains: \"" : String).data.tail,
      by decide⟩ s) _

lemma waitLine_head (w : Nat) : ∃ r, (waitLine w).data = 'A' :: r :=
  head_append (head_append
    ⟨("After submitting, wait up to " : String).data.tail, by decide⟩ (toString w)) _

lemma dash_head (c : String) : ∃ r, ("- " ++ c).data = '-' :: r :=
  head_append ⟨[' '], rfl⟩ c

/-- A string that does not start with `S` is not a submission directive. -/
lemma isSubmitDirective_false_of_head {l : String} {c : Char} (hx : ∃ r, l.data = c :: r)
    (h : ('S' == c) = false) : isSubmitDirective l = false := by
  obtain ⟨r, hr⟩ := hx
  unfold isSubmitDirective
  rw [hr, show ("Submit the form by clicking" : String).data =
    'S' :: ("ubmit the form by clicking" : String).data from rfl]
  simp [List.isPrefixOf, h]

lemma isSubmitDirective_selector (sel : String) :
    isSubmitDirective (selectorSubmitLine sel) = true := by
  unfold isSubmitDirective selectorSubmitLine
  rw [List.isPrefixOf_iff_prefix, String.data_append, String.data_append]
  have hlit : ("Submit the form by clicking the element matching CSS selector: " : String).data
      = ("Submit the form by clicking" : String).data ++
        (" the element matching CSS selector: " : String).data := by decide
  rw [hlit]
  simp

lemma isSubmitDirective_text (txt : String) :
    isSubmitDirective (textSubmitLine txt) = true := by
  unfold isSubmitDirective textSubmitLine
  rw [List.isPrefixOf_iff_prefix, String.data_append, String.data_append]
  have hlit : ("Submit the form by clicking the most prominent button whose text contains: \"" : String).data
      = ("Submit the form by clicking" : String).data ++
        (" the most prominent button whose text contains: \"" : String).data := by decide
  rw [hlit]
  simp

lemma isSubmitDirective_fallback : isSubmitDirective fallbackSubmitLine = true := by decide

/-- The chosen submission directive always is one. -/
lemma isSubmitDirective_submitLine (ss st : Option String) :
    isSubmitDirective (submitLine ss st) = true := by
  unfold submitLine
  split_ifs with h1 h2
  · exact isSubmitDirective_selector _
  · exact isSubmitDirective_text _
  · exact isSubmitDirective_fallback

/-- No header or policy line is a submission directive. -/
lemma header_no_submit (url : String) :
    ∀ l ∈ taskHeaderLines url, isSubmitDirective l = false := by
  intro l hl
  simp only [taskHeaderLines, policyLines, List.mem_cons, List.not_mem_nil, or_false] at hl
  rcases hl with rfl | rfl | rfl | rfl | rfl | rfl | rfl | rfl | rfl | rfl
  · exact isSubmitDirective_false_of_head (open_line_head url) (by decide)
  all_goals decide

/-- No rendered field line is a submission directive. -/
lemma fields_no_submit (fields : List (String × String)) :
    ∀ l ∈ fields.map (fun kv => fieldLine kv.1 kv.2), isSubmitDirective l = false := by
  intro l hl
  simp only [List.mem_map] at hl
  obtain ⟨kv, _, rfl⟩ := hl
  exact isSubmitDirective_false_of_head (fieldLine_head kv.1 kv.2) (by decide)

/-- No verification-block or summary line is a submission directive. -/
lemma verification_no_submit (cs mt : Option String) :
    ∀ l ∈ verificationLines cs mt, isSubmitDirective l = false := by
  intro l hl
  cases hemp : (checksList cs mt).isEmpty
  · simp only [verificationLines, hemp, Bool.false_eq_true, if_false, List.mem_cons,
      List.mem_append, List.mem_map, List.mem_singleton, List.not_mem_nil, or_false] at hl
    rcases hl with (rfl | ⟨c, _, rfl⟩) | rfl | rfl
    · decide
    · exact isSubmitDirective_false_of_head (dash_head c) (by decide)
    · decide
    · decide
  · simp only [verificationLines, hemp, if_true, List.mem_singleton] at hl
    subst hl
    decide

/-- No closing-contract line is a submission directive. -/
lemma closing_no_submit : ∀ l ∈ closingLines, isSubmitDirective l = false := by
  intro l hl
  unfold closingLines at hl
  simp only [List.mem_cons, List.not_mem_nil, or_false] at hl
  rcases hl with rfl | rfl | rfl | rfl | rfl <;> decide

/-- The only submission directive among the task lines is the chosen one. -/
lemma submit_directive_unique (url : String) (fields : List (String × String))
    (ss st cs mt : Option String) (w : Nat) :
    ∀ l ∈ buildTaskLines url fields ss st cs mt w,
      isSubmitDirective l = true → l = submitLine ss st := by
  intro l hl hdir
  unfold buildTaskLines at hl
  simp only [List.mem_append, List.mem_singleton] at hl
  rcases hl with ((((hl | hl) | rfl) | rfl) | hl) | hl
  · rw [header_no_submit url l hl] at hdir; cases hdir
  · rw [fields_no_submit fields l hl] at hdir; cases hdir
  · rfl
  · rw [isSubmitDirective_false_of_head (waitLine_head w) (by decide)] at hdir
    cases hdir
  · rw [verification_no_submit cs mt l hl] at hdir; cases hdir
  · rw [closing_no_submit l hl] at hdir; cases hdir

/-- The chosen directive is among the task lines. -/
lemma submitLine_mem (url : String) (fields : List (String × String))
    (ss st cs mt : Option String) (w : Nat) :
    submitLine ss st ∈ buildTaskLines url fields ss st cs mt w := by
  unfold buildTaskLines
  simp

/-- The structural-click directive never coincides with the generic
fallback directive, whatever the selector. -/
lemma selector_ne_fallback (sel : String) : selectorSubmitLine sel ≠ fallbackSubmitLine := by
  intro h
  have h2 := congrArg String.data h
  simp [selectorSubmitLine, fallbackSubmitLine, String.data_append] at h2

/-! ## Claims about the task composer -/

/-- C4: the submission directive is chosen by strict precedence — a truthy
`submit_selector` puts the structural-click directive in the task and keeps
the generic fallback out regardless of `submit_text`; otherwise a truthy
`submit_text` puts the fuzzy label-click directive in; otherwise the
generic fallback directive is in — and exactly one submission directive is
emitted. -/
theorem C4_submit_precedence (url : String) (fields : List (String × String))
    (ss st cs mt : Option String) (w : Nat) :
    (pyTruthy ss = true →
      selectorSubmitLine (pyOrS ss "") ∈ buildTaskLines url fields ss st cs mt w ∧
      fallbackSubmitLine ∉ buildTaskLines url fields ss st cs mt w) ∧
    (pyTruthy ss = false → pyTruthy st = true →
      textSubmitLine (pyOrS st "") ∈ buildTaskLines url fields ss st cs mt w) ∧
    (pyTruthy ss = false → pyTruthy st = false →
      fallbackSubmitLine ∈ buildTaskLines url fields ss st cs mt w) ∧
    (buildTaskLines url fields ss st cs mt w).countP (fun l => isSubmitDirective l) = 1 := by
  refine ⟨?_, ?_, ?_, ?_⟩
  · intro hss
    constructor
    · have he : selectorSubmitLine (pyOrS ss "") = submitLine ss st := by
        simp [submitLine, hss]
      rw [he]
      exact submitLine_mem url fields ss st cs mt w
    · intro hmem
      have hu := submit_directive_unique url fields ss st cs mt w _ hmem
        isSubmitDirective_fallback
      rw [submitLine, if_pos hss] at hu
      exact selector_ne_fallback (pyOrS ss "") hu.symm
  · intro hss hst
    have he : textSubmitLine (pyOrS st "") = submitLine ss st := by
      simp [submitLine, hss, hst]
    rw [he]
    exact submitLine_mem url fields ss st cs mt w
  · intro hss hst
    have he : fallbackSubmitLine = submitLine ss st := by
      simp [submitLine, hss, hst]
    rw [he]
    exact submitLine_mem url fields ss st cs mt w
  · unfold buildTaskLines
    rw [List.countP_append, List.countP_append, List.countP_append,
      List.countP_append, List.countP_append]
    have h1 : (taskHeaderLines url).countP (fun l => isSubmitDirective l) = 0 := by
      rw [List.countP_eq_zero]
      intro a ha
      simp [header_no_submit url a ha]
    have h2 : (fields.map (fun kv => fieldLine kv.1 kv.2)).countP
        (fun l => isSubmitDirective l) = 0 := by
      rw [List.countP_eq_zero]
      intro a ha
      simp [fields_no_submit fields a ha]
    have h3 : ([submitLine ss st]).countP (fun l => isSubmitDirective l) = 1 := by
      simp [List.countP_cons, isSubmitDirective_submitLine]
    have h4 : ([waitLine w]).countP (fun l => isSubmitDirective l) = 0 := by
      simp [List.countP_cons,
        isSubmitDirective_false_of_head (waitLine_head w) (by decide)]
    have h5 : (verificationLines cs mt).countP (fun l => isSubmitDirective l) = 0 := by
      rw [List.countP_eq_zero]
      intro a ha
      simp [verification_no_submit cs mt a ha]
    have h6 : closingLines.countP (fun l => isSubmitDirective l) = 0 := by
      rw [List.countP_eq_zero]
      intro a ha
      simp [closing_no_submit a ha]
    rw [h1, h2, h3, h4, h5, h6]

/-- Witness for C4: all three precedence branches at concrete requests —
a set selector wins and excludes the fallback, then a set submit text, then
the fallback. -/
theorem C4_submit_precedence_witness :
    (pyTruthy (some "#go") = true ∧
      (selectorSubmitLine (pyOrS (some "#go") "") ∈
        buildTaskLines "http://x/login" [("Email", "a@b.com")] (some "#go")
          (some "Sign in") none none 45 ∧
       fallbackSubmitLine ∉
        buildTaskLines "http://x/login" [("Email", "a@b.com")] (some "#go")
          (some "Sign in") none none 45)) ∧
    (textSubmitLine (pyOrS (some "Sign in") "") ∈
      buildTaskLines "http://x/login" [("Email", "a@b.com")] none
        (some "Sign in") none none 45) ∧
    (fallbackSubmitLine ∈
      buildTaskLines "http://x/login" [("Email", "a@b.com")] none none none none 45) :=
  ⟨⟨rfl, (C4_submit_precedence "http://x/login" [("Email", "a@b.com")] (some "#go")
      (some "Sign in") none none 45).1 rfl⟩,
   (C4_submit_precedence "http://x/login" [("Email", "a@b.com")] none
      (some "Sign in") none none 45).2.1 rfl rfl,
   (C4_submit_precedence "http://x/login" [("Email", "a@b.com")] none
      none none none 45).2.2.1 rfl rfl⟩

/-- C8 counterexample: the TIMEOUT response omits the "model" key, so the
echoed model identifier is not included on every path. -/
theorem C8_counterexample :
    (fill_form_and_check "llama3.1:8b" 300 .timeout).model = none := rfl

/-- C8 (amended): every response has status "ok"; the echoed model
identifier is included on the success path, but the TIMEOUT and ERROR
responses omit the "model" key. -/
theorem C8_status_and_model (model : String) (timeout_seconds : Nat) :
    (∀ outcome, (fill_form_and_check model timeout_seconds outcome).status = "ok") ∧
    (∀ history, (fill_form_and_check model timeout_seconds (.success history)).model =
      some model) ∧
    (fill_form_and_check model timeout_seconds .timeout).model = none ∧
    (∀ e, (fill_form_and_check model timeout_seconds (.failure e)).model = none) := by
  refine ⟨fun o => ?_, fun _ => rfl, rfl, fun _ => rfl⟩
  cases o <;> rfl

/-- C9: for a step record on which neither attribute-style nor
mapping-style extraction succeeds (field access raises), the rendered step
summary falls back to the raw textual rendering of the whole record capped
at 200 characters. -/
theorem C9_raw_fallback (i : Nat) (t : String) :
    stepStr i (.raising t) = "Step " ++ toString (i + 1) ++ ": " ++ pySlice t 200 ∧
    (pySlice t 200).length ≤ 200 :=
  ⟨rfl, pySlice_length_le t 200⟩

/-! ## Membership toolkit for the task lines -/

/-- Case analysis for membership among the task lines. -/
lemma mem_buildTask_cases {l url : String} {fields : List (String × String)}
    {ss st cs mt : Option String} {w : Nat}
    (hl : l ∈ buildTaskLines url fields ss st cs mt w) :
    l ∈ taskHeaderLines url ∨ (∃ kv, kv ∈ fields ∧ fieldLine kv.1 kv.2 = l) ∨
    l = submitLine ss st ∨ l = waitLine w ∨ l ∈ verificationLines cs mt ∨
    l ∈ closingLines := by
  unfold buildTaskLines at hl
  simp only [List.mem_append, List.mem_singleton, List.mem_map] at hl
  rcases hl with ((((h | h) | h) | h) | h) | h <;>
    simp [h]

/-- Any member of the verification block is a task line. -/
lemma mem_buildTask_of_mem_verification {x url : String} {fields : List (String × String)}
    {ss st cs mt : Option String} {w : Nat} (hx : x ∈ verificationLines cs mt) :
    x ∈ buildTaskLines url fields ss st cs mt w := by
  unfold buildTaskLines
  simp [hx]

lemma summaryLine_head : ∃ r, summaryLine.data = 'F' :: r :=
  ⟨summaryLine.data.tail, by decide⟩

lemma passInstrLine_head : ∃ r, passInstrLine.data = 'I' :: r :=
  ⟨passInstrLine.data.tail, by decide⟩

lemma failInstrLine_head : ∃ r, failInstrLine.data = 'I' :: r :=
  ⟨failInstrLine.data.tail, by decide⟩

lemma verifHeaderLine_head : ∃ r, ("Verification:" : String).data = 'V' :: r :=
  ⟨("Verification:" : String).data.tail, by decide⟩

/-- A string that starts with a character other than `S` and differs from
the fallback directive is never the chosen submission directive. -/
lemma ne_submitLine_of {τ : String} {c : Char} (hτ : ∃ r, τ.data = c :: r)
    (hc : c ≠ 'S') (hfb : τ ≠ fallbackSubmitLine) (ss st : Option String) :
    τ ≠ submitLine ss st := by
  unfold submitLine
  split_ifs with h1 h2
  · exact ne_of_head hτ (selectorSubmitLine_head _) hc
  · exact ne_of_head hτ (textSubmitLine_head _) hc
  · exact hfb

/-- A truthy check predicate makes the `checks` list non-empty. -/
lemma checksList_not_empty {cs mt : Option String}
    (h : pyTruthy cs = true ∨ pyTruthy mt = true) :
    (checksList cs mt).isEmpty = false := by
  unfold checksList
  rcases h with h | h
  · simp [h]
  · cases hcs : pyTruthy cs <;> simp [h, hcs]

/-- The verification block when at least one predicate is truthy. -/
lemma verificationLines_with_checks {cs mt : Option String}
    (h : pyTruthy cs = true ∨ pyTruthy mt = true) :
    verificationLines cs mt =
      "Verification:" :: ((checksList cs mt).map (fun c => "- " ++ c) ++
        [passInstrLine, failInstrLine]) := by
  simp [verificationLines, checksList_not_empty h]

/-- The generic summary directive when neither predicate is truthy. -/
lemma verificationLines_no_checks {cs mt : Option String}
    (hcs : pyTruthy cs = false) (hmt : pyTruthy mt = false) :
    verificationLines cs mt = [summaryLine] := by
  simp [verificationLines, checksList, hcs, hmt]

/-- A string with head other than `O` that is not a policy line is not a
header line. -/
lemma not_mem_header_of {τ : String} {c : Char} (hτ : ∃ r, τ.data = c :: r)
    (hc : c ≠ 'O') (hfix : τ ∉ policyLines) (url : String) :
    τ ∉ taskHeaderLines url := by
  intro h
  rcases List.mem_cons.mp h with h | h
  · exact ne_of_head hτ (open_line_head url) hc h
  · exact hfix h

/-- No fixed string with head other than `-`, distinct from the four fixed
verification-block lines, occurs in the verification block. -/
lemma not_mem_verification_of {τ : String} {c : Char} (hτ : ∃ r, τ.data = c :: r)
    (hc : c ≠ '-') (hv : τ ≠ "Verification:") (hp : τ ≠ passInstrLine)
    (hf : τ ≠ failInstrLine) (hs : τ ≠ summaryLine) (cs mt : Option String) :
    τ ∉ verificationLines cs mt := by
  intro h
  cases hemp : (checksList cs mt).isEmpty
  · simp only [verificationLines, hemp, Bool.false_eq_true, if_false, List.mem_cons,
      List.mem_append, List.mem_map, List.mem_singleton, List.not_mem_nil, or_false] at h
    rcases h with (h | ⟨d, _, h⟩) | h | h
    · exact hv h
    · exact ne_of_head (dash_head d) hτ (Ne.symm hc) h
    · exact hp h
    · exact hf h
  · simp only [verificationLines, hemp, if_true, List.mem_singleton] at h
    exact hs h

/-- A string absent from every block is not a task line. -/
lemma not_mem_buildTask_of {τ url : String} {fields : List (String × String)}
    {ss st cs mt : Option String} {w : Nat}
    (hhead : τ ∉ taskHeaderLines url)
    (hfield : ∀ k v, fieldLine k v ≠ τ)
    (hsubmit : τ ≠ submitLine ss st)
    (hwait : τ ≠ waitLine w)
    (hver : τ ∉ verificationLines cs mt)
    (hclose : τ ∉ closingLines) :
    τ ∉ buildTaskLines url fields ss st cs mt w := by
  intro hl
  rcases mem_buildTask_cases hl with h | ⟨kv, _, h⟩ | h | h | h | h
  · exact hhead h
  · exact hfield kv.1 kv.2 h
  · exact hsubmit h
  · exact hwait h
  · exact hver h
  · exact hclose h

/-- When a check predicate is present the generic summary directive is
absent from the task. -/
lemma summaryLine_not_mem {url : String} {fields : List (String × String)}
    {ss st cs mt : Option String} {w : Nat}
    (h : pyTruthy cs = true ∨ pyTruthy mt = true) :
    summaryLine ∉ buildTaskLines url fields ss st cs mt w := by
  apply not_mem_buildTask_of
  · exact not_mem_header_of summaryLine_head (by decide) (by decide) url
  · intro k v
    exact ne_of_head (fieldLine_head k v) summaryLine_head (by decide)
  · exact ne_submitLine_of summaryLine_head (by decide) (by decide) ss st
  · exact ne_of_head summaryLine_head (waitLine_head w) (by decide)
  · rw [verificationLines_with_checks h]
    intro hm
    simp only [List.mem_cons, List.mem_append, List.mem_map, List.mem_singleton,
      List.not_mem_nil, or_false] at hm
    rcases hm with hm | (⟨d, _, hm⟩ | hm | hm)
    · exact absurd hm (by decide)
    · exact ne_of_head (dash_head d) summaryLine_head (by decide) hm
    · exact absurd hm (by decide)
    · exact absurd hm (by decide)
  · decide

/-- Without check predicates the PASS instruction is absent. -/
lemma passInstr_not_mem {url : String} {fields : List (String × String)}
    {ss st cs mt : Option String} {w : Nat}
    (hcs : pyTruthy cs = false) (hmt : pyTruthy mt = false) :
    passInstrLine ∉ buildTaskLines url fields ss st cs mt w := by
  apply not_mem_buildTask_of
  · exact not_mem_header_of passInstrLine_head (by decide) (by decide) url
  · intro k v
    exact ne_of_head (fieldLine_head k v) passInstrLine_head (by decide)
  · exact ne_submitLine_of passInstrLine_head (by decide) (by decide) ss st
  · exact ne_of_head passInstrLine_head (waitLine_head w) (by decide)
  · rw [verificationLines_no_checks hcs hmt]
    intro hm
    simp only [List.mem_singleton] at hm
    exact absurd hm (by decide)
  · decide

/-- Without check predicates the FAIL instruction is absent. -/
lemma failInstr_not_mem {url : String} {fields : List (String × String)}
    {ss st cs mt : Option String} {w : Nat}
    (hcs : pyTruthy cs = false) (hmt : pyTruthy mt = false) :
    failInstrLine ∉ buildTaskLines url fields ss st cs mt w := by
  apply not_mem_buildTask_of
  · exact not_mem_header_of failInstrLine_head (by decide) (by decide) url
  · intro k v
    exact ne_of_head (fieldLine_head k v) failInstrLine_head (by decide)
  · exact ne_submitLine_of failInstrLine_head (by decide) (by decide) ss st
  · exact ne_of_head failInstrLine_head (waitLine_head w) (by decide)
  · rw [verificationLines_no_checks hcs hmt]
    intro hm
    simp only [List.mem_singleton] at hm
    exact absurd hm (by decide)
  · decide

/-- Without check predicates the verification header is absent. -/
lemma verifHeader_not_mem {url : String} {fields : List (String × String)}
    {ss st cs mt : Option String} {w : Nat}
    (hcs : pyTruthy cs = false) (hmt : pyTruthy mt = false) :
    ("Verification:" : String) ∉ buildTaskLines url fields ss st cs mt w := by
  apply not_mem_buildTask_of
  · exact not_mem_header_of verifHeaderLine_head (by decide) (by decide) url
  · intro k v
    exact ne_of_head (fieldLine_head k v) verifHeaderLine_head (by decide)
  · exact ne_submitLine_of verifHeaderLine_head (by decide) (by decide) ss st
  · exact ne_of_head verifHeaderLine_head (waitLine_head w) (by decide)
  · rw [verificationLines_no_checks hcs hmt]
    intro hm
    simp only [List.mem_singleton] at hm
    exact absurd hm (by decide)
  · decide

/-- C5: the rendered task contains the verification block — header, one
confirmation line per truthy predicate, and the PASS/FAIL emission
instructions — precisely when at least one of `check_selector` and
`must_contain_text` is truthy; when neither is, the task instead contains
the generic summary directive and none of the verification-block lines. -/
theorem C5_verification_iff (url : String) (fields : List (String × String))
    (ss st cs mt : Option String) (w : Nat) :
    (pyTruthy cs = true ∨ pyTruthy mt = true →
      ("Verification:" : String) ∈ buildTaskLines url fields ss st cs mt w ∧
      passInstrLine ∈ buildTaskLines url fields ss st cs mt w ∧
      failInstrLine ∈ buildTaskLines url fields ss st cs mt w ∧
      summaryLine ∉ buildTaskLines url fields ss st cs mt w ∧
      (pyTruthy cs = true →
        "- " ++ checkSelectorLine (pyOrS cs "") ∈ buildTaskLines url fields ss st cs mt w) ∧
      (pyTruthy mt = true →
        "- " ++ mustContainLine (pyOrS mt "") ∈ buildTaskLines url fields ss st cs mt w)) ∧
    (pyTruthy cs = false → pyTruthy mt = false →
      summaryLine ∈ buildTaskLines url fields ss st cs mt w ∧
      passInstrLine ∉ buildTaskLines url fields ss st cs mt w ∧
      failInstrLine ∉ buildTaskLines url fields ss st cs mt w ∧
      ("Verification:" : String) ∉ buildTaskLines url fields ss st cs mt w) := by
  constructor
  · intro h
    refine ⟨?_, ?_, ?_, summaryLine_not_mem h, ?_, ?_⟩
    · exact mem_buildTask_of_mem_verification
        (by rw [verificationLines_with_checks h]; exact List.mem_cons_self _ _)
    · exact mem_buildTask_of_mem_verification
        (by rw [verificationLines_with_checks h]; simp)
    · exact mem_buildTask_of_mem_verification
        (by rw [verificationLines_with_checks h]; simp)
    · intro hcs
      refine mem_buildTask_of_mem_verification ?_
      rw [verificationLines_with_checks h]
      have hin : checkSelectorLine (pyOrS cs "") ∈ checksList cs mt := by
        unfold checksList
        simp [hcs]
      simp only [List.mem_cons, List.mem_append, List.mem_map]
      exact Or.inr (Or.inl ⟨_, hin, rfl⟩)
    · intro hmt
      refine mem_buildTask_of_mem_verification ?_
      rw [verificationLines_with_checks h]
      have hin : mustContainLine (pyOrS mt "") ∈ checksList cs mt := by
        unfold checksList
        cases hcs : pyTruthy cs <;> simp [hcs, hmt]
      simp only [List.mem_cons, List.mem_append, List.mem_map]
      exact Or.inr (Or.inl ⟨_, hin, rfl⟩)
  · intro hcs hmt
    refine ⟨?_, passInstr_not_mem hcs hmt, failInstr_not_mem hcs hmt,
      verifHeader_not_mem hcs hmt⟩
    exact mem_buildTask_of_mem_verification
      (by rw [verificationLines_no_checks hcs hmt]; simp)

/-- Witness for C5: with `must_contain_text = "Welcome"` the task carries
the verification block and its confirmation line and not the summary
directive; with no predicates it carries the summary directive and no
PASS/FAIL instructions. -/
theorem C5_verification_iff_witness :
    (pyTruthy (some "Welcome") = true ∧
      (("Verification:" : String) ∈ buildTaskLines "http://x/login"
          [("Email", "a@b.com")] none (some "Sign in") none (some "Welcome") 45 ∧
       passInstrLine ∈ buildTaskLines "http://x/login"
          [("Email", "a@b.com")] none (some "Sign in") none (some "Welcome") 45 ∧
       failInstrLine ∈ buildTaskLines "http://x/login"
          [("Email", "a@b.com")] none (some "Sign in") none (some "Welcome") 45 ∧
       summaryLine ∉ buildTaskLines "http://x/login"
          [("Email", "a@b.com")] none (some "Sign in") none (some "Welcome") 45 ∧
       (pyTruthy (none : Option String) = true →
         "- " ++ checkSelectorLine (pyOrS none "") ∈ buildTaskLines "http://x/login"
           [("Email", "a@b.com")] none (some "Sign in") none (some "Welcome") 45) ∧
       (pyTruthy (some "Welcome") = true →
         "- " ++ mustContainLine (pyOrS (some "Welcome") "") ∈ buildTaskLines "http://x/login"
           [("Email", "a@b.com")] none (some "Sign in") none (some "Welcome") 45))) ∧
    (summaryLine ∈ buildTaskLines "http://x/login"
        [("Email", "a@b.com")] none none none none 45 ∧
     passInstrLine ∉ buildTaskLines "http://x/login"
        [("Email", "a@b.com")] none none none none 45 ∧
     failInstrLine ∉ buildTaskLines "http://x/login"
        [("Email", "a@b.com")] none none none none 45 ∧
     ("Verification:" : String) ∉ buildTaskLines "http://x/login"
        [("Email", "a@b.com")] none none none none 45) :=
  ⟨⟨rfl, (C5_verification_iff "http://x/login" [("Email", "a@b.com")] none
      (some "Sign in") none (some "Welcome") 45).1 (Or.inr rfl)⟩,
   (C5_verification_iff "http://x/login" [("Email", "a@b.com")] none
      none none none 45).2 rfl rfl⟩

/-- C6: the rendered task carries exactly one field line per entry of
`fields`, in insertion order, each formatted `- key -> value` with the
value's embedded newlines replaced by spaces and surrounding whitespace
stripped and the key passed through untouched; the header block ends with
the field-list header, and an empty mapping leaves the header with no
field lines. -/
theorem C6_field_lines (url : String) (fields : List (String × String))
    (ss st cs mt : Option String) (w : Nat) :
    buildTaskLines url fields ss st cs mt w =
      taskHeaderLines url ++
      fields.map (fun kv => "- " ++ kv.1 ++ " -> " ++ (kv.2.replace "\n" " ").trim) ++
      ([submitLine ss st] ++ [waitLine w] ++ verificationLines cs mt ++ closingLines) ∧
    (taskHeaderLines url).getLast? = some "Fields to fill (key -> value):" ∧
    (buildTaskLines url fields ss st cs mt w).length =
      fields.length + 17 + (verificationLines cs mt).length ∧
    buildTaskLines url [] ss st cs mt w =
      taskHeaderLines url ++
      ([submitLine ss st] ++ [waitLine w] ++ verificationLines cs mt ++ closingLines) := by
  refine ⟨?_, ?_, ?_, ?_⟩
  · simp [buildTaskLines, fieldLine]
  · rfl
  · simp only [buildTaskLines, taskHeaderLines, policyLines, closingLines,
      List.length_append, List.length_map, List.length_cons, List.length_singleton,
      List.length_nil]
    omega
  · simp [buildTaskLines]

/-- C10: presence of the optional string parameters is decided by string
truthiness, not an is-set flag — replacing any one of the four optional
parameters by the empty string renders exactly the same task as leaving it
absent; an all-empty-string request yields the generic fallback submit
directive and the generic summary directive; and an empty selector with a
truthy `submit_text` still yields the fuzzy label-click directive. -/
theorem C10_empty_string_unset (url : String) (fields : List (String × String))
    (ss st cs mt : Option String) (w : Nat) :
    buildTaskLines url fields (some "") st cs mt w =
      buildTaskLines url fields none st cs mt w ∧
    buildTaskLines url fields ss (some "") cs mt w =
      buildTaskLines url fields ss none cs mt w ∧
    buildTaskLines url fields ss st (some "") mt w =
      buildTaskLines url fields ss st none mt w ∧
    buildTaskLines url fields ss st cs (some "") w =
      buildTaskLines url fields ss st cs none w ∧
    fallbackSubmitLine ∈
      buildTaskLines url fields (some "") (some "") (some "") (some "") w ∧
    summaryLine ∈
      buildTaskLines url fields (some "") (some "") (some "") (some "") w ∧
    (pyTruthy st = true →
      textSubmitLine (pyOrS st "") ∈ buildTaskLines url fields (some "") st cs mt w) := by
  refine ⟨rfl, rfl, rfl, rfl, ?_, ?_, ?_⟩
  · have he : submitLine (some "") (some "") = fallbackSubmitLine := rfl
    rw [← he]
    exact submitLine_mem url fields (some "") (some "") (some "") (some "") w
  · exact mem_buildTask_of_mem_verification
      (by rw [show verificationLines (some "") (some "") = [summaryLine] from rfl]; simp)
  · intro hst
    have he : submitLine (some "") st = textSubmitLine (pyOrS st "") := by
      simp [submitLine, hst, show pyTruthy (some "") = false from rfl]
    rw [← he]
    exact submitLine_mem url fields (some "") st cs mt w

/-- Witness for C10: an empty-string selector together with the submit
text "Sign in" yields the fuzzy label-click directive. -/
theorem C10_empty_string_unset_witness :
    pyTruthy (some "Sign in") = true ∧
    textSubmitLine (pyOrS (some "Sign in") "") ∈
      buildTaskLines "http://x/login" [("Email", "a@b.com")] (some "")
        (some "Sign in") none none 45 :=
  ⟨rfl, (C10_empty_string_unset "http://x/login" [("Email", "a@b.com")] none
      (some "Sign in") none none 45).2.2.2.2.2.2 rfl⟩

end FormFiller
